import Mathlib

/-!
Verification development for the scan-request orchestration core of the
Living Lexicon server.

The development shallowly embeds, from the JavaScript source:

* the exponential-backoff `retry` wrapper of the Vertex AI service module;
* the scan fingerprint (`generateScanKey` / `hashString`, DJB2 over four
  sampled 64-character windows) of the cache service module;
* the thin cache wrappers (`getCachedScan`, `setCachedScan`,
  `getCachedCollection`, `setCachedCollection`, `invalidateCollection`);
* the control flow of the `POST /api/scan` handler of `server.js`
  (validation, cache check, service-availability check, staging, analysis,
  synthesis, asset upload with data-URI fallback, record persistence,
  cache update), as the pure function `handleScan`.

The backing key-value store of the two caches is the `node-cache` npm
package, whose implementation is not part of this repository; the
`Cache` structure below is therefore modelled from the specification of
the bounded TTL cache (get/set/invalidate/flushAll over entries with
`insertedAt`/`expiresAt`, at most `maxEntries` live entries, eviction of
the oldest-inserted entry on overflow, lazy expiry).

JavaScript strings are modelled as Lean `String`; character positions are
code units of the ASCII payloads considered, so `String.length`,
`List.take`/`List.drop` on `String.toList`, and `Char.toNat` agree with
JavaScript `length`, `substring` and `charCodeAt`.  Asynchronous
collaborator calls are modelled as deterministic functions returning
`Except`; within a single request the handler awaits each stage before
the next, so sequential state passing is faithful.  Wall-clock time is an
explicit `now : Nat` parameter (seconds, matching the `stdTTL` units of
the source configuration).
-/

namespace LivingLexicon

/-! ## JavaScript values and truthiness (for the request body fields) -/

/-- A JavaScript value as far as the scan-handler validation observes it:
`req.body.image` and `req.body.sessionId` may be absent (`undefined`),
`null`, a boolean, a number, a string, or some other object. -/
inductive JsVal where
  | undef : JsVal
  | nullv : JsVal
  | bool (b : Bool) : JsVal
  | num (n : Int) : JsVal
  | str (s : String) : JsVal
  | obj : JsVal
deriving DecidableEq

/-- JavaScript truthiness of the modelled values: `undefined`, `null`,
`false`, `0` and the empty string are falsy, everything else is truthy. -/
def JsVal.truthy : JsVal → Bool
  | .undef => false
  | .nullv => false
  | .bool b => b
  | .num n => decide (¬ n = 0)
  | .str s => !s.data.isEmpty
  | .obj => true

/-- Whether `typeof v === 'string'` holds. -/
def JsVal.isString : JsVal → Bool
  | .str _ => true
  | _ => false

/-- The underlying string of a string value (only consulted by the handler
after the string type check has passed). -/
def JsVal.strVal : JsVal → String
  | .str s => s
  | _ => ""

/-! ## Retry with exponential backoff

Embeds `retry` of the Vertex AI service module:

    async function retry(fn, retries = 3, delay = 1000) {
      try { return await fn(); } catch (err) {
        if (retries <= 0) throw err;
        await new Promise((resolve) => setTimeout(resolve, delay));
        return retry(fn, retries - 1, delay * 2);
      }
    }

The fallible asynchronous operation is modelled as the sequence of the
outcomes of its successive invocations, and the run is instrumented with
the number of invocations performed and the list of awaited delays. -/

/-- A fallible asynchronous operation: `f k` is the outcome of its
invocation number `k` (0-based). -/
def Operation (E A : Type) : Type := Nat → Except E A

/-- Instrumented trace of one run of the retry wrapper: final outcome,
number of invocations of the wrapped operation, and the backoff delays
awaited, in order (milliseconds). -/
structure RetryTrace (E A : Type) where
  result : Except E A
  calls : Nat
  waits : List Nat

/-- The retry wrapper. `retries` and `delay` mirror the source parameters;
`attempt` is the 0-based index of the current invocation (instrumentation
only, the source closes over `fn`). -/
def retry {E A : Type} (f : Operation E A) (retries delay attempt : Nat) :
    RetryTrace E A :=
  match f attempt with
  | Except.ok a => ⟨Except.ok a, 1, []⟩
  | Except.error e =>
    match retries with
    | 0 => ⟨Except.error e, 1, []⟩
    | r + 1 =>
      let t := retry f r (delay * 2) (attempt + 1)
      ⟨t.result, t.calls + 1, delay :: t.waits⟩

/-! ## Scan fingerprint (cache service module) -/

/-- JavaScript `s.substring(start, stop)` for `start ≤ stop` (the only form
the fingerprint uses), with the same clamping behaviour at the end of the
string. -/
def jsSubstring (s : String) (start stop : Nat) : String :=
  ((s.data.take stop).drop start).asString

/-- Truncation of an integer to a signed 32-bit value, as performed by the
JavaScript bitwise operators. -/
def toInt32 (n : Int) : Int :=
  (n + 2 ^ 31) % 2 ^ 32 - 2 ^ 31

/-- One step of the DJB2 fold: `hash = ((hash << 5) + hash + c) & 0xffffffff`.
The shift truncates to 32 bits, the sum is exact in a JavaScript number, and
the mask `& 0xffffffff` is again a signed 32-bit truncation. -/
def hashStep (hash : Int) (c : Char) : Int :=
  toInt32 (toInt32 (hash * 32) + hash + (c.toNat : Int))

/-- JavaScript `n.toString(16)` for an integral number: lowercase hex digits,
a leading minus sign for negative values. -/
def jsHexString (n : Int) : String :=
  if n < 0 then "-" ++ (Nat.toDigits 16 n.natAbs).asString
  else (Nat.toDigits 16 n.natAbs).asString

/-- Embeds `hashString` (simple DJB2 string hash, rendered in hex). -/
def hashString (s : String) : String :=
  jsHexString (s.data.foldl hashStep 5381)

/-- Embeds `generateScanKey`: sample four 64-character windows of the base64
payload (at offsets `0`, `⌊len/4⌋`, `⌊len/2⌋` and `⌊3·len/4⌋`), join them
with a bar, and DJB2-hash the joined sample. -/
def generateScanKey (base64Image : String) : String :=
  let len := base64Image.length
  let sample :=
    jsSubstring base64Image 0 64 ++ "|" ++
    jsSubstring base64Image (len / 4) (len / 4 + 64) ++ "|" ++
    jsSubstring base64Image (len / 2) (len / 2 + 64) ++ "|" ++
    jsSubstring base64Image (3 * len / 4) (3 * len / 4 + 64)
  "scan:" ++ hashString sample

/-! ## Bounded TTL cache

Modelled from the spec: the backing store (the `node-cache` package) is not
part of this repository, so the cache is taken from the specified contract:
entries `{key, value, insertedAt, expiresAt}`, `get` returns a live
(non-expired) entry or absent, `set` inserts or overwrites resetting the
TTL clock and, at capacity on a new key, first evicts per policy,
`invalidate` removes a key, `flushAll` empties the cache, and at most
`maxEntries` live entries exist at any time.  Entries are kept in insertion
order; since every entry of one cache instance carries the same TTL, the
oldest-inserted entry is also the soonest to expire, so evicting the head
implements the specified eviction policy (the spec allows committing to
the oldest-insertion tie-break).  Hit/miss counters are bookkeeping the
spec excludes from the observable behaviour of `get`; they are omitted. -/

/-- One cache entry. -/
structure CacheEntry (K V : Type) where
  key : K
  value : V
  insertedAt : Nat
  expiresAt : Nat
deriving DecidableEq

/-- A bounded TTL cache: configuration plus current entries in insertion
order. -/
structure Cache (K V : Type) where
  maxEntries : Nat
  ttl : Nat
  entries : List (CacheEntry K V)
deriving DecidableEq

/-- Modelled from the spec: return the value of a live (non-expired) entry
for the key, absent otherwise. -/
def Cache.get {K V : Type} [DecidableEq K] (c : Cache K V) (k : K) (now : Nat) :
    Option V :=
  (c.entries.find? fun e => decide (e.key = k) && decide (now < e.expiresAt)).map
    (fun e => e.value)

/-- The entries surviving the purge a `set` performs: the overwritten key
and the expired entries are dropped. -/
def Cache.purgedForSet {K V : Type} [DecidableEq K] (c : Cache K V) (k : K)
    (now : Nat) : List (CacheEntry K V) :=
  c.entries.filter fun e => decide (¬ e.key = k) && decide (now < e.expiresAt)

/-- The entries kept by a `set`: when the purge leaves the cache at
capacity, the oldest-inserted entry (the head) is evicted. -/
def Cache.keptForSet {K V : Type} [DecidableEq K] (c : Cache K V) (k : K)
    (now : Nat) : List (CacheEntry K V) :=
  if c.maxEntries ≤ (c.purgedForSet k now).length then
    (c.purgedForSet k now).tail
  else c.purgedForSet k now

/-- Modelled from the spec: insert or overwrite, resetting the TTL clock;
expired entries are purged opportunistically; if still at capacity the
oldest-inserted entry is evicted before the new entry is appended. -/
def Cache.set {K V : Type} [DecidableEq K] (c : Cache K V) (k : K) (v : V)
    (now : Nat) : Cache K V :=
  ⟨c.maxEntries, c.ttl, c.keptForSet k now ++ [⟨k, v, now, now + c.ttl⟩]⟩

/-- Modelled from the spec: remove the entry for a key if present, no-op
otherwise. -/
def Cache.invalidate {K V : Type} [DecidableEq K] (c : Cache K V) (k : K) :
    Cache K V :=
  ⟨c.maxEntries, c.ttl, c.entries.filter fun e => decide (¬ e.key = k)⟩

/-- Modelled from the spec: remove every entry. -/
def Cache.flushAll {K V : Type} (c : Cache K V) : Cache K V :=
  ⟨c.maxEntries, c.ttl, []⟩

/-- Number of live (non-expired) entries at a given time. -/
def Cache.liveEntries {K V : Type} (c : Cache K V) (now : Nat) : Nat :=
  (c.entries.filter fun e => decide (now < e.expiresAt)).length

/-- Current number of stored entries (the `currentSize` statistic). -/
def Cache.currentSize {K V : Type} (c : Cache K V) : Nat :=
  c.entries.length

/-! ## Cache service wrappers

Embed the exported functions of the cache service module, with the
module-global cache instances passed as explicit state.  The source
configures the scan-dedup cache with `stdTTL: 300, maxKeys: 50` and the
collection cache with `stdTTL: 60, maxKeys: 100`. -/

/-- Embeds `getCachedScan`: look the fingerprint key up in the scan cache. -/
def getCachedScan {V : Type} (sc : Cache String V) (base64Image : String)
    (now : Nat) : Option V :=
  sc.get (generateScanKey base64Image) now

/-- Embeds `setCachedScan`: store a result under the fingerprint key. -/
def setCachedScan {V : Type} (sc : Cache String V) (base64Image : String)
    (result : V) (now : Nat) : Cache String V :=
  sc.set (generateScanKey base64Image) result now

/-- Embeds `getCachedCollection`. -/
def getCachedCollection {V : Type} (cc : Cache String V) (sessionId : String)
    (now : Nat) : Option V :=
  cc.get ("collection:" ++ sessionId) now

/-- Embeds `setCachedCollection`. -/
def setCachedCollection {V : Type} (cc : Cache String V) (sessionId : String)
    (monsters : V) (now : Nat) : Cache String V :=
  cc.set ("collection:" ++ sessionId) monsters now

/-- Embeds `invalidateCollection`. -/
def invalidateCollection {V : Type} (cc : Cache String V) (sessionId : String) :
    Cache String V :=
  cc.invalidate ("collection:" ++ sessionId)

/-! ## Pipeline data model (server.js, POST /api/scan) -/

/-- One monster move (name, power, description), as produced by the
analysis schema. -/
structure Move where
  name : String
  power : Int
  description : String
deriving DecidableEq

/-- Result of the Gemini analysis stage.  Fields are optional because the
handler applies JavaScript defaulting (`x || fallback`) to each; the
latency/model metrics of the source are observability-only and omitted. -/
structure Analysis where
  name : Option String
  originalObject : Option String
  types : Option (List String)
  lore : Option String
  moves : Option (List Move)
deriving DecidableEq

/-- Result of the Imagen synthesis stage: the embedded data URI and the raw
encoded image bytes. -/
structure Visual where
  dataUri : String
  raw : String
deriving DecidableEq

/-- The assembled monster document (the PipelineResult).  The
`vertexMetrics` latencies of the source are observability-only and
omitted; `capturedAt` is the handler clock. -/
structure Monster where
  id : String
  name : String
  originalObject : String
  types : List String
  lore : String
  moves : List Move
  imageUrl : String
  rawScanUrl : Option String
  capturedAt : Nat
deriving DecidableEq

/-- JavaScript string defaulting `s || d`: the empty string is falsy, so an
absent or empty field falls back to the default. -/
def jsOrStr (v : Option String) (d : String) : String :=
  match v with
  | some s => if s.data.isEmpty then d else s
  | none => d

/-- The external collaborators of the handler, as deterministic functions.
`cacheAvailable` models whether the cache service module loaded;
`servicesAvailable` models whether the Vertex AI, Firestore and Storage
modules all loaded (the source guards on their conjunction).  Each fallible
collaborator returns `Except` with the error message of the thrown error. -/
structure Collabs where
  cacheAvailable : Bool
  servicesAvailable : Bool
  uploadRawScan : String → Except String String
  analyzeImage : String → Except String Analysis
  generateMonsterVisual : Analysis → Except String Visual
  uploadMonsterImage : String → String → Except String String
  saveMonster : String → Monster → Except String Unit

/-- Number of invocations of each collaborator performed while handling one
request. -/
structure Calls where
  staging : Nat
  analyze : Nat
  synthesize : Nat
  assetUpload : Nat
  persist : Nat
deriving DecidableEq

/-- No collaborator invoked. -/
def Calls.zero : Calls := ⟨0, 0, 0, 0, 0⟩

/-- Componentwise sum of two invocation counts. -/
def Calls.add (a b : Calls) : Calls :=
  ⟨a.staging + b.staging, a.analyze + b.analyze, a.synthesize + b.synthesize,
   a.assetUpload + b.assetUpload, a.persist + b.persist⟩

/-- The terminal validation failures of the handler, in source order. -/
inductive ValidationFailure where
  | invalidInput : ValidationFailure
  | invalidSession : ValidationFailure
  | payloadTooLarge : ValidationFailure
deriving DecidableEq

/-- The fixed maximum accepted payload length (10 MiB of characters). -/
def maxImageLength : Nat := 10 * 1024 * 1024

/-- Embeds the three early validation returns of the handler:
missing/non-string image (400 INVALID_INPUT), missing/non-string session
identifier (400 INVALID_SESSION), oversized payload (413
PAYLOAD_TOO_LARGE, strict comparison so the boundary is inclusive). -/
def validateScan (image sessionId : JsVal) : Option ValidationFailure :=
  if !(image.truthy && image.isString) then some ValidationFailure.invalidInput
  else if !(sessionId.truthy && sessionId.isString) then
    some ValidationFailure.invalidSession
  else if maxImageLength < image.strVal.length then
    some ValidationFailure.payloadTooLarge
  else none

/-- The response of the scan handler. -/
inductive ScanResponse where
  | validationError (e : ValidationFailure) : ScanResponse
  | serviceUnavailable : ScanResponse
  | ok (monster : Monster) (cached : Bool) : ScanResponse
  | pipelineError (message : String) : ScanResponse
deriving DecidableEq

/-- HTTP status the handler sends for each response. -/
def ScanResponse.status : ScanResponse → Nat
  | .validationError .invalidInput => 400
  | .validationError .invalidSession => 400
  | .validationError .payloadTooLarge => 413
  | .serviceUnavailable => 503
  | .ok _ _ => 200
  | .pipelineError _ => 500

/-- Full outcome of one handled request: response, both resulting cache
states, and collaborator invocation counts. -/
structure ScanOutcome where
  response : ScanResponse
  scanCache : Cache String Monster
  collectionCache : Cache String (List Monster)
  calls : Calls
deriving DecidableEq

/-- The monster document assembled by the handler after a successful
synthesis stage: asset upload with data-URI fallback, JavaScript-defaulted
analysis fields, and the best-effort staging URL (absent when staging
failed). -/
def assembleMonster (env : Collabs) (img monsterId : String) (now : Nat)
    (analysis : Analysis) (visual : Visual) : Monster :=
  { id := monsterId
    name := jsOrStr analysis.name "Unknown Entity"
    originalObject := jsOrStr analysis.originalObject "Unknown Matter"
    types := analysis.types.getD ["Unknown"]
    lore := jsOrStr analysis.lore "No data recovered."
    moves := analysis.moves.getD []
    imageUrl :=
      match env.uploadMonsterImage visual.raw monsterId with
      | Except.ok url => url
      | Except.error _ => visual.dataUri
    rawScanUrl := (env.uploadRawScan img).toOption
    capturedAt := now }

/-- Embeds the `POST /api/scan` handler control flow of `server.js`:
validation, scan-cache check (short-circuiting to a cache-hit response),
service-availability check (503), best-effort staging upload, analysis,
synthesis, asset upload with fallback, record persistence, cache update,
response; every thrown stage error lands in the catch block, which answers
500 PIPELINE_ERROR with the error message and no monster.  `monsterId`
abstracts the clock-and-random identifier the source generates. -/
def handleScan (env : Collabs) (sc : Cache String Monster)
    (cc : Cache String (List Monster)) (image sessionId : JsVal)
    (monsterId : String) (now : Nat) : ScanOutcome :=
  match validateScan image sessionId with
  | some e => ⟨ScanResponse.validationError e, sc, cc, Calls.zero⟩
  | none =>
    let img := image.strVal
    let sid := sessionId.strVal
    match (if env.cacheAvailable then getCachedScan sc img now else none) with
    | some m => ⟨ScanResponse.ok m true, sc, cc, Calls.zero⟩
    | none =>
      if !env.servicesAvailable then
        ⟨ScanResponse.serviceUnavailable, sc, cc, Calls.zero⟩
      else
        match env.analyzeImage img with
        | Except.error e => ⟨ScanResponse.pipelineError e, sc, cc, ⟨1, 1, 0, 0, 0⟩⟩
        | Except.ok analysis =>
          match env.generateMonsterVisual analysis with
          | Except.error e =>
            ⟨ScanResponse.pipelineError e, sc, cc, ⟨1, 1, 1, 0, 0⟩⟩
          | Except.ok visual =>
            let monster := assembleMonster env img monsterId now analysis visual
            match env.saveMonster sid monster with
            | Except.error e =>
              ⟨ScanResponse.pipelineError e, sc, cc, ⟨1, 1, 1, 1, 1⟩⟩
            | Except.ok _ =>
              ⟨ScanResponse.ok monster false,
               if env.cacheAvailable then setCachedScan sc img monster now else sc,
               if env.cacheAvailable then invalidateCollection cc sid else cc,
               ⟨1, 1, 1, 1, 1⟩⟩

/-! ## Concrete instances used by witnesses and counterexamples -/

/-- Sequentially insert keys (each with value 0) into a string-keyed cache
at one fixed time. -/
def insertKeys (c : Cache String Nat) (ks : List String) (now : Nat) :
    Cache String Nat :=
  ks.foldl (fun acc k => acc.set k 0 now) c

/-- A 320-character payload of letters A. -/
def collideA : String := String.mk (List.replicate 320 'A')

/-- A 320-character payload differing from `collideA` exactly at position
70, which none of the four sampled windows (offsets 0, 80, 160, 240)
covers. -/
def collideB : String :=
  String.mk (List.replicate 70 'A' ++ 'B' :: List.replicate 249 'A')

/-- The scan-dedup cache as configured by the source (stdTTL 300,
maxKeys 50), initially empty. -/
def emptyScanCache : Cache String Monster := ⟨50, 300, []⟩

/-- The collection cache as configured by the source (stdTTL 60,
maxKeys 100), initially empty. -/
def emptyCollectionCache : Cache String (List Monster) := ⟨100, 60, []⟩

/-- A sample analysis result. -/
def analysisSample : Analysis :=
  ⟨some "Sparkit", some "spark plug", some ["Electric", "Steel"],
   some "It crackles with residual charge.", some []⟩

/-- A sample synthesis result. -/
def visualSample : Visual := ⟨"data:image/jpeg;base64,xyz", "xyz"⟩

/-- A sample monster document. -/
def monsterSample : Monster :=
  ⟨"m0", "Sparkit", "spark plug", ["Electric", "Steel"],
   "It crackles with residual charge.", [], "https://img.example/m0", none, 0⟩

/-- An environment in which every collaborator succeeds. -/
def envAllOk : Collabs :=
  ⟨true, true, fun _ => Except.ok "gs://raw/1",
   fun _ => Except.ok analysisSample, fun _ => Except.ok visualSample,
   fun _ _ => Except.ok "https://storage.example/pub", fun _ _ => Except.ok ()⟩

/-- An environment in which only the Firestore write fails. -/
def envPersistFail : Collabs :=
  ⟨true, true, fun _ => Except.ok "gs://raw/1",
   fun _ => Except.ok analysisSample, fun _ => Except.ok visualSample,
   fun _ _ => Except.ok "https://storage.example/pub",
   fun _ _ => Except.error "firestore down"⟩

/-- An environment in which only the staging upload fails. -/
def envStagingFail : Collabs :=
  ⟨true, true, fun _ => Except.error "gcs down",
   fun _ => Except.ok analysisSample, fun _ => Except.ok visualSample,
   fun _ _ => Except.ok "https://storage.example/pub", fun _ _ => Except.ok ()⟩

/-- An environment in which only the synthesized-image upload fails. -/
def envAssetFail : Collabs :=
  ⟨true, true, fun _ => Except.ok "gs://raw/1",
   fun _ => Except.ok analysisSample, fun _ => Except.ok visualSample,
   fun _ _ => Except.error "gcs down", fun _ _ => Except.ok ()⟩

/-- An environment in which the analysis stage fails. -/
def envAnalyzeFail : Collabs :=
  ⟨true, true, fun _ => Except.ok "gs://raw/1",
   fun _ => Except.error "vertex down", fun _ => Except.ok visualSample,
   fun _ _ => Except.ok "https://storage.example/pub", fun _ _ => Except.ok ()⟩

/-- An environment in which the Google Cloud service modules did not load
(degraded mode) while the cache module did. -/
def envNoServices : Collabs :=
  ⟨true, false, fun _ => Except.error "unavailable",
   fun _ => Except.error "unavailable", fun _ => Except.error "unavailable",
   fun _ _ => Except.error "unavailable", fun _ _ => Except.error "unavailable"⟩

/-- A scan cache already holding the result of a scan of the payload
`imgdata`. -/
def prepopulatedScanCache : Cache String Monster :=
  setCachedScan emptyScanCache "imgdata" monsterSample 0

/-- A payload of exactly the maximum accepted length. -/
def imageAtLimit : String := String.mk (List.replicate maxImageLength 'a')

/-- A payload one character over the maximum accepted length. -/
def imageOverLimit : String :=
  String.mk (List.replicate (maxImageLength + 1) 'a')

/-! ## Cache lemmas -/

/-- List helper: a search over a concatenation whose left part contains no
match continues in the right part. -/
theorem find_append_of_forall_false {α : Type} (p : α → Bool) (l₁ l₂ : List α)
    (h : ∀ x ∈ l₁, p x = false) :
    List.find? p (l₁ ++ l₂) = List.find? p l₂ := by
  induction l₁ with
  | nil => rfl
  | cons a l ih =>
    rw [List.cons_append, List.find?_cons_of_neg]
    · exact ih fun x hx => h x (List.mem_cons_of_mem a hx)
    · simp [h a (List.mem_cons_self a l)]

/-- Every entry kept by a `set` for key `k` carries a different key. -/
theorem Cache.key_ne_of_mem_keptForSet {K V : Type} [DecidableEq K]
    {c : Cache K V} {k : K} {now : Nat} {e : CacheEntry K V}
    (he : e ∈ c.keptForSet k now) : ¬ e.key = k := by
  have hmem : e ∈ c.purgedForSet k now := by
    unfold Cache.keptForSet at he
    split at he
    · exact List.mem_of_mem_tail he
    · exact he
  have hp := List.of_mem_filter hmem
  exact of_decide_eq_true ((Bool.and_eq_true _ _).mp hp).1

/-- After `set k v` the lookup of `k` sees exactly the fresh entry: the
value before its expiry, absent afterwards. -/
theorem Cache.get_set_self {K V : Type} [DecidableEq K] (c : Cache K V)
    (k : K) (v : V) (now t : Nat) :
    (c.set k v now).get k t = if t < now + c.ttl then some v else none := by
  unfold Cache.get Cache.set
  rw [find_append_of_forall_false]
  · by_cases h : t < now + c.ttl
    · rw [if_pos h, List.find?_cons_of_pos]
      · rfl
      · simp [h]
    · rw [if_neg h, List.find?_cons_of_neg]
      · rfl
      · simp [h]
  · intro x hx
    have hk := Cache.key_ne_of_mem_keptForSet hx
    simp [hk]

/-- A `set` on a cache holding at most `maxEntries` entries keeps the store
within `maxEntries` entries. -/
theorem Cache.set_size_le {K V : Type} [DecidableEq K] (c : Cache K V)
    (k : K) (v : V) (now : Nat) (hmax : 0 < c.maxEntries)
    (hsize : c.entries.length ≤ c.maxEntries) :
    (c.set k v now).entries.length ≤ c.maxEntries := by
  have hp : (c.purgedForSet k now).length ≤ c.maxEntries :=
    le_trans (List.length_filter_le _ _) hsize
  simp only [Cache.set, Cache.keptForSet]
  split
  · rw [List.length_append, List.length_tail, List.length_singleton]
    omega
  · rw [List.length_append, List.length_singleton]
    omega

/-- The live entries of a cache are among its stored entries. -/
theorem Cache.liveEntries_le_size {K V : Type} (c : Cache K V) (now : Nat) :
    c.liveEntries now ≤ c.entries.length :=
  List.length_filter_le _ _

set_option maxRecDepth 10000

/-- C3: every `set` keeps a bounded cache bounded — under `maxEntries`
stored entries a `set` leaves at most `maxEntries` stored entries, hence at
most `maxEntries` live entries at any time; a `set` on a cache at capacity
succeeds (it evicts per policy and the fresh value is retrievable rather
than the operation erroring); and for both source configurations
(scan-dedup: maxKeys 50, collection: maxKeys 100) inserting
`maxEntries + 1` distinct keys leaves exactly `maxEntries` live entries
with the evicted first key no longer retrievable. -/
theorem cache_bounds :
    (∀ (K V : Type) [DecidableEq K] (c : Cache K V) (k : K) (v : V)
        (now t : Nat), 0 < c.maxEntries → c.entries.length ≤ c.maxEntries →
        (c.set k v now).entries.length ≤ c.maxEntries ∧
        (c.set k v now).liveEntries t ≤ c.maxEntries) ∧
    (∀ (K V : Type) [DecidableEq K] (c : Cache K V) (k : K) (v : V)
        (now : Nat), 0 < c.maxEntries → 0 < c.ttl →
        c.entries.length = c.maxEntries →
        (c.set k v now).get k now = some v) ∧
    ((insertKeys ⟨50, 300, []⟩ ((List.range 51).map Nat.repr) 0).liveEntries 0
        = 50 ∧
      (insertKeys ⟨50, 300, []⟩ ((List.range 51).map Nat.repr) 0).currentSize
        = 50 ∧
      (insertKeys ⟨50, 300, []⟩ ((List.range 51).map Nat.repr) 0).get
        (Nat.repr 0) 0 = none) ∧
    ((insertKeys ⟨100, 60, []⟩ ((List.range 101).map Nat.repr) 0).liveEntries 0
        = 100 ∧
      (insertKeys ⟨100, 60, []⟩ ((List.range 101).map Nat.repr) 0).currentSize
        = 100 ∧
      (insertKeys ⟨100, 60, []⟩ ((List.range 101).map Nat.repr) 0).get
        (Nat.repr 0) 0 = none) := by
  refine ⟨?_, ?_, by decide, by decide⟩
  · intro K V instK c k v now t hmax hsize
    have hb := Cache.set_size_le c k v now hmax hsize
    exact ⟨hb, le_trans (Cache.liveEntries_le_size _ t) hb⟩
  · intro K V instK c k v now hmax httl hsize
    rw [Cache.get_set_self]
    rw [if_pos]
    omega

/-- Witness for C3 at concrete caches: a `set` on an empty 50-entry cache
keeps it within bounds, and a `set` on a one-entry cache of capacity one
evicts and stores the fresh value successfully. -/
theorem cache_bounds_witness :
    (((⟨50, 300, []⟩ : Cache String Nat).set "a" 7 0).entries.length ≤ 50 ∧
      ((⟨50, 300, []⟩ : Cache String Nat).set "a" 7 0).liveEntries 0 ≤ 50) ∧
    ((⟨1, 300, [⟨"x", 5, 0, 300⟩]⟩ : Cache String Nat).set "y" 9 10).get "y" 10
      = some 9 := by
  constructor
  · exact cache_bounds.1 String Nat (⟨50, 300, []⟩ : Cache String Nat)
      "a" 7 0 0 (by decide) (by decide)
  · exact cache_bounds.2.1 String Nat
      (⟨1, 300, [⟨"x", 5, 0, 300⟩]⟩ : Cache String Nat) "y" 9 10
      (by decide) (by decide) (by decide)

/-- C7: on either source cache configuration (scan-dedup TTL 300 s,
collection TTL 60 s), a value stored by `set` is returned by a `get` of the
same key performed before the TTL has elapsed and is absent from a `get`
performed at or after expiry. -/
theorem cache_ttl_roundtrip (V : Type) (sc : Cache String V)
    (ccol : Cache String V) (img sid : String) (v w : V) (now now' : Nat)
    (hscMax : sc.maxEntries = 50) (hscTtl : sc.ttl = 300)
    (hscCap : sc.currentSize < 50)
    (hccMax : ccol.maxEntries = 100) (hccTtl : ccol.ttl = 60)
    (hccCap : ccol.currentSize < 100) (hmono : now ≤ now') :
    ((now' < now + 300 →
        getCachedScan (setCachedScan sc img v now) img now' = some v) ∧
      (now + 300 ≤ now' →
        getCachedScan (setCachedScan sc img v now) img now' = none)) ∧
    ((now' < now + 60 →
        getCachedCollection (setCachedCollection ccol sid w now) sid now'
          = some w) ∧
      (now + 60 ≤ now' →
        getCachedCollection (setCachedCollection ccol sid w now) sid now'
          = none)) := by
  unfold getCachedScan setCachedScan getCachedCollection setCachedCollection
  rw [Cache.get_set_self, Cache.get_set_self, hscTtl, hccTtl]
  refine ⟨⟨fun h => if_pos h, fun h => if_neg (by omega)⟩,
    ⟨fun h => if_pos h, fun h => if_neg (by omega)⟩⟩

/-- Witness for C7: concrete round trips on freshly configured caches, one
lookup inside the TTL window and one at expiry, for both configurations. -/
theorem cache_ttl_roundtrip_witness :
    getCachedScan (setCachedScan (⟨50, 300, []⟩ : Cache String Nat) "img" 1 0)
      "img" 299 = some 1 ∧
    getCachedScan (setCachedScan (⟨50, 300, []⟩ : Cache String Nat) "img" 1 0)
      "img" 300 = none ∧
    getCachedCollection
      (setCachedCollection (⟨100, 60, []⟩ : Cache String Nat) "s1" 2 0)
      "s1" 59 = some 2 ∧
    getCachedCollection
      (setCachedCollection (⟨100, 60, []⟩ : Cache String Nat) "s1" 2 0)
      "s1" 60 = none := by
  have h₁ := cache_ttl_roundtrip Nat ⟨50, 300, []⟩ ⟨100, 60, []⟩ "img" "s1"
    1 2 0 299 rfl rfl (by decide) rfl rfl (by decide) (by decide)
  have h₂ := cache_ttl_roundtrip Nat ⟨50, 300, []⟩ ⟨100, 60, []⟩ "img" "s1"
    1 2 0 300 rfl rfl (by decide) rfl rfl (by decide) (by decide)
  have h₃ := cache_ttl_roundtrip Nat ⟨50, 300, []⟩ ⟨100, 60, []⟩ "img" "s1"
    1 2 0 59 rfl rfl (by decide) rfl rfl (by decide) (by decide)
  have h₄ := cache_ttl_roundtrip Nat ⟨50, 300, []⟩ ⟨100, 60, []⟩ "img" "s1"
    1 2 0 60 rfl rfl (by decide) rfl rfl (by decide) (by decide)
  exact ⟨h₁.1.1 (by decide), h₂.1.2 (by decide), h₃.2.1 (by decide),
    h₄.2.2 (by decide)⟩

/-! ## Theorems: retry wrapper -/

/-- A first-attempt success returns immediately with a single invocation
and no waiting. -/
theorem retry_of_ok {E A : Type} (f : Operation E A) (m d a : Nat) (x : A)
    (h : f a = Except.ok x) : retry f m d a = ⟨Except.ok x, 1, []⟩ := by
  unfold retry
  rw [h]

/-- The wrapped operation is invoked at most `1 + retries` times. -/
theorem retry_calls_le {E A : Type} (f : Operation E A) (m d a : Nat) :
    (retry f m d a).calls ≤ 1 + m := by
  induction m generalizing d a with
  | zero =>
    unfold retry
    cases hf : f a <;> simp
  | succ r ih =>
    unfold retry
    cases hf : f a with
    | ok x => simp
    | error e =>
      have := ih (d * 2) (a + 1)
      simp only []
      omega

/-- Exact trace of a run whose operation fails on every attempt: one more
invocation than the retry budget, geometrically growing waits, and the
failure of the last attempt as the result. -/
theorem retry_of_allfail {E A : Type} (f : Operation E A) (g : Nat → E)
    (hf : ∀ k, f k = Except.error (g k)) (m d a : Nat) :
    retry f m d a =
      ⟨Except.error (g (a + m)), m + 1,
       (List.range m).map (fun k => d * 2 ^ k)⟩ := by
  induction m generalizing d a with
  | zero =>
    unfold retry
    rw [hf a]
    rfl
  | succ r ih =>
    unfold retry
    rw [hf a]
    simp only []
    rw [ih (d * 2) (a + 1)]
    have hlist : (List.range (r + 1)).map (fun k => d * 2 ^ k) =
        d :: (List.range r).map (fun k => d * 2 * 2 ^ k) := by
      rw [List.range_succ_eq_map, List.map_cons, List.map_map]
      have hfun : ((fun k => d * 2 ^ k) ∘ Nat.succ) =
          fun k => d * 2 * 2 ^ k := by
        funext k
        simp only [Function.comp, pow_succ]
        ring
      rw [hfun]
      simp
    rw [hlist]
    have harg : a + 1 + r = a + (r + 1) := by omega
    rw [harg]

/-- The geometric wait schedule unrolled by one step: the first wait is
`d`, and the remaining schedule is the one started from the doubled
delay. -/
theorem geometric_waits (d j : Nat) :
    (List.range (j + 1)).map (fun k => d * 2 ^ k) =
      d :: (List.range j).map (fun k => d * 2 * 2 ^ k) := by
  rw [List.range_succ_eq_map, List.map_cons, List.map_map]
  have hfun : ((fun k => d * 2 ^ k) ∘ Nat.succ) =
      fun k => d * 2 * 2 ^ k := by
    funext k
    simp only [Function.comp, pow_succ]
    ring
  rw [hfun]
  simp

/-- Exact trace of a run whose first success is at attempt `j` within the
retry budget: the success value is returned at that point with exactly
`j + 1` invocations, after waiting `d * 2 ^ k` before the `(k+1)`-th retry
for each retry performed. -/
theorem retry_first_success {E A : Type} (f : Operation E A)
    (j m d a : Nat) (x : A) (hj : j ≤ m)
    (hfail : ∀ k, k < j → ∃ e, f (a + k) = Except.error e)
    (hsucc : f (a + j) = Except.ok x) :
    retry f m d a =
      ⟨Except.ok x, j + 1, (List.range j).map (fun k => d * 2 ^ k)⟩ := by
  induction j generalizing m d a with
  | zero =>
    rw [retry_of_ok f m d a x (by simpa using hsucc)]
    rfl
  | succ i ih =>
    obtain ⟨e, he⟩ := hfail 0 (Nat.succ_pos i)
    rw [show a + 0 = a from Nat.add_zero a] at he
    cases m with
    | zero => omega
    | succ m' =>
      unfold retry
      rw [he]
      simp only []
      have hfail' : ∀ k, k < i → ∃ e, f (a + 1 + k) = Except.error e := by
        intro k hk
        have h := hfail (k + 1) (by omega)
        rwa [show a + (k + 1) = a + 1 + k by omega] at h
      have hsucc' : f (a + 1 + i) = Except.ok x := by
        rwa [show a + 1 + i = a + (i + 1) by omega]
      rw [ih m' (d * 2) (a + 1) (by omega) hfail' hsucc', geometric_waits]

/-- C2: `retry(f, m, d)` returns the result of the first successful attempt
immediately with no further invocation — if the first success is at attempt
`j ≤ m` after `j` failures, the run stops there with exactly `j + 1`
invocations, having waited `d * 2 ^ k` milliseconds before the `(k+1)`-th
retry for each retry performed; the operation is invoked at most `1 + m`
times in every run; and when every attempt fails, it is invoked exactly
`1 + m` times, the full wait schedule is `d * 2 ^ k`, and the failure of
the last attempt is propagated unchanged. -/
theorem retry_contract {E A : Type} (f : Operation E A) (g : Nat → E)
    (m d : Nat) :
    (∀ j x, j ≤ m → (∀ k, k < j → ∃ e, f k = Except.error e) →
      f j = Except.ok x →
      retry f m d 0 =
        ⟨Except.ok x, j + 1, (List.range j).map (fun k => d * 2 ^ k)⟩) ∧
    (retry f m d 0).calls ≤ 1 + m ∧
    ((∀ k, f k = Except.error (g k)) →
      (retry f m d 0).calls = 1 + m ∧
      (retry f m d 0).waits = (List.range m).map (fun k => d * 2 ^ k) ∧
      (retry f m d 0).result = Except.error (g m)) := by
  refine ⟨?_, retry_calls_le f m d 0, fun hf => ?_⟩
  · intro j x hj hfail hsucc
    exact retry_first_success f j m d 0 x hj (by simpa using hfail)
      (by simpa using hsucc)
  · rw [retry_of_allfail f g hf m d 0]
    refine ⟨?_, rfl, ?_⟩
    · show m + 1 = 1 + m
      omega
    · show Except.error (g (0 + m)) = Except.error (g m)
      rw [Nat.zero_add]

/-- Witness for C2 at the two operations of the source tests: one failing
once then succeeding (with budget 3 it resolves with the success value
after exactly 2 invocations and one 10 ms wait), and one always failing
(with budget 2 it is invoked exactly 3 times, waits 10 then 20 ms, and
propagates the underlying failure unchanged). -/
theorem retry_contract_witness :
    retry (fun k => if k = 0 then (Except.error "timeout" :
        Except String String) else Except.ok "recovered") 3 10 0 =
      ⟨Except.ok "recovered", 2, [10]⟩ ∧
    (retry (fun _ => Except.error "permanent" : Operation String Nat)
        2 10 0).calls = 1 + 2 ∧
    (retry (fun _ => Except.error "permanent" : Operation String Nat)
        2 10 0).waits = [10, 20] ∧
    (retry (fun _ => Except.error "permanent" : Operation String Nat)
        2 10 0).result = Except.error "permanent" := by
  have h₁ := (retry_contract
      (fun k => if k = 0 then (Except.error "timeout" : Except String String)
        else Except.ok "recovered")
      (fun _ => "timeout") 3 10).1 1 "recovered" (by omega)
      (fun k hk => ⟨"timeout", by
        have hk0 : k = 0 := by omega
        subst hk0
        rfl⟩) rfl
  have h₂ := (retry_contract
      (fun _ => Except.error "permanent" : Operation String Nat)
      (fun _ => "permanent") 2 10).2.2 (fun k => rfl)
  exact ⟨by rw [h₁]; rfl, h₂.1, by rw [h₂.2.1]; rfl, h₂.2.2⟩

/-! ## Theorems: fingerprint sampling -/

/-- Payloads of equal length that agree on the four sampled windows receive
the same scan key: the fingerprint reads nothing else of the payload. -/
theorem generateScanKey_eq_of_windows (x y : String)
    (hlen : x.length = y.length)
    (h0 : jsSubstring x 0 64 = jsSubstring y 0 64)
    (h1 : jsSubstring x (x.length / 4) (x.length / 4 + 64) =
      jsSubstring y (y.length / 4) (y.length / 4 + 64))
    (h2 : jsSubstring x (x.length / 2) (x.length / 2 + 64) =
      jsSubstring y (y.length / 2) (y.length / 2 + 64))
    (h3 : jsSubstring x (3 * x.length / 4) (3 * x.length / 4 + 64) =
      jsSubstring y (3 * y.length / 4) (3 * y.length / 4 + 64)) :
    generateScanKey x = generateScanKey y := by
  simp only [generateScanKey]
  rw [h0, h1, h2, h3]

/-- C8: distinct payloads can share a fingerprint.  Any two equal-length
payloads agreeing on the four sampled 64-character windows (offsets 0,
`⌊len/4⌋`, `⌊len/2⌋`, `⌊3·len/4⌋`) receive equal scan keys; the concrete
320-character payloads `collideA` and `collideB`, differing at the
unsampled position 70, are distinct yet share a key; and a scan of one is
answered with the cached PipelineResult of the other. -/
theorem fingerprint_collision :
    (∀ x y : String, x.length = y.length →
      jsSubstring x 0 64 = jsSubstring y 0 64 →
      jsSubstring x (x.length / 4) (x.length / 4 + 64) =
        jsSubstring y (y.length / 4) (y.length / 4 + 64) →
      jsSubstring x (x.length / 2) (x.length / 2 + 64) =
        jsSubstring y (y.length / 2) (y.length / 2 + 64) →
      jsSubstring x (3 * x.length / 4) (3 * x.length / 4 + 64) =
        jsSubstring y (3 * y.length / 4) (3 * y.length / 4 + 64) →
      generateScanKey x = generateScanKey y) ∧
    (collideA ≠ collideB ∧
      generateScanKey collideA = generateScanKey collideB) ∧
    (∀ (sc : Cache String Monster) (m : Monster) (now t : Nat),
      t < now + sc.ttl →
      getCachedScan (setCachedScan sc collideA m now) collideB t = some m) := by
  have hkey : generateScanKey collideA = generateScanKey collideB :=
    generateScanKey_eq_of_windows collideA collideB (by decide) (by decide)
      (by decide) (by decide) (by decide)
  refine ⟨generateScanKey_eq_of_windows, ⟨by decide, hkey⟩, ?_⟩
  intro sc m now t ht
  unfold getCachedScan setCachedScan
  rw [← hkey, Cache.get_set_self, if_pos ht]

/-- Witness for C8: the window lemma applied to the concrete colliding
pair, and a scan of `collideB` answered from the entry cached for
`collideA`. -/
theorem fingerprint_collision_witness :
    generateScanKey collideA = generateScanKey collideB ∧
    getCachedScan (setCachedScan emptyScanCache collideA monsterSample 5)
      collideB 10 = some monsterSample := by
  exact ⟨fingerprint_collision.1 collideA collideB (by decide) (by decide)
      (by decide) (by decide) (by decide),
    fingerprint_collision.2.2 emptyScanCache monsterSample 5 10 (by decide)⟩

/-! ## Handler lemmas -/

/-- Shape of a handled request that hits the scan cache: the cached monster
is returned as a cache hit, both caches are untouched and no collaborator
is invoked. -/
theorem handleScan_hit (env : Collabs) (sc : Cache String Monster)
    (cc : Cache String (List Monster)) (image sessionId : JsVal)
    (mid : String) (now : Nat) (m : Monster)
    (hval : validateScan image sessionId = none)
    (hca : env.cacheAvailable = true)
    (hhit : getCachedScan sc image.strVal now = some m) :
    handleScan env sc cc image sessionId mid now =
      ⟨ScanResponse.ok m true, sc, cc, Calls.zero⟩ := by
  simp [handleScan, hval, hca, hhit]

/-- Shape of a fully successful pipeline run: the assembled monster is
returned as a fresh result, the scan cache takes the new entry, the
collection entry of the session is invalidated, and every collaborator is
invoked once. -/
theorem handleScan_success (env : Collabs) (sc : Cache String Monster)
    (cc : Cache String (List Monster)) (image sessionId : JsVal)
    (mid : String) (now : Nat)
    (hval : validateScan image sessionId = none)
    (hmiss : (if env.cacheAvailable then getCachedScan sc image.strVal now
      else none) = none)
    (hserv : env.servicesAvailable = true)
    (a : Analysis) (vis : Visual)
    (hana : env.analyzeImage image.strVal = Except.ok a)
    (hvis : env.generateMonsterVisual a = Except.ok vis)
    (hsave : ∀ s m, env.saveMonster s m = Except.ok ()) :
    handleScan env sc cc image sessionId mid now =
      ⟨ScanResponse.ok (assembleMonster env image.strVal mid now a vis) false,
       if env.cacheAvailable then
         setCachedScan sc image.strVal
           (assembleMonster env image.strVal mid now a vis) now
       else sc,
       if env.cacheAvailable then invalidateCollection cc sessionId.strVal
       else cc,
       ⟨1, 1, 1, 1, 1⟩⟩ := by
  simp [handleScan, hval, hmiss, hserv, hana, hvis, hsave]

/-! ## Theorems: pipeline orchestrator -/

/-- C1: a request whose fingerprint has a live scan-cache entry is answered
with the cached PipelineResult as a cache hit with no collaborator invoked
and both caches untouched; consequently, of two sequential requests with
byte-identical payloads whose first run succeeds end to end, the second is
a cache hit and each expensive collaborator is invoked exactly once across
both calls. -/
theorem scan_dedup :
    (∀ (env : Collabs) (sc : Cache String Monster)
        (cc : Cache String (List Monster)) (image sessionId : JsVal)
        (mid : String) (now : Nat) (m : Monster),
      validateScan image sessionId = none →
      env.cacheAvailable = true →
      getCachedScan sc image.strVal now = some m →
      handleScan env sc cc image sessionId mid now =
        ⟨ScanResponse.ok m true, sc, cc, Calls.zero⟩) ∧
    (∀ (env : Collabs) (sc : Cache String Monster)
        (cc : Cache String (List Monster)) (image sessionId : JsVal)
        (mid mid' : String) (now now' : Nat) (a : Analysis) (vis : Visual),
      validateScan image sessionId = none →
      env.cacheAvailable = true →
      env.servicesAvailable = true →
      getCachedScan sc image.strVal now = none →
      env.analyzeImage image.strVal = Except.ok a →
      env.generateMonsterVisual a = Except.ok vis →
      (∀ s m, env.saveMonster s m = Except.ok ()) →
      sc.ttl = 300 → now ≤ now' → now' < now + 300 →
      (handleScan env (handleScan env sc cc image sessionId mid now).scanCache
          (handleScan env sc cc image sessionId mid now).collectionCache
          image sessionId mid' now').response =
        ScanResponse.ok (assembleMonster env image.strVal mid now a vis)
          true ∧
      Calls.add (handleScan env sc cc image sessionId mid now).calls
        (handleScan env
          (handleScan env sc cc image sessionId mid now).scanCache
          (handleScan env sc cc image sessionId mid now).collectionCache
          image sessionId mid' now').calls = ⟨1, 1, 1, 1, 1⟩) := by
  refine ⟨handleScan_hit, ?_⟩
  intro env sc cc image sessionId mid mid' now now' a vis hval hca hserv
    hmiss hana hvis hsave httl hle hlt
  have hmiss' : (if env.cacheAvailable then
      getCachedScan sc image.strVal now else none) = none := by
    rw [hca]
    simpa using hmiss
  have h1 := handleScan_success env sc cc image sessionId mid now hval hmiss'
    hserv a vis hana hvis hsave
  have hsc1 : (handleScan env sc cc image sessionId mid now).scanCache =
      setCachedScan sc image.strVal
        (assembleMonster env image.strVal mid now a vis) now := by
    rw [h1]
    simp [hca]
  have hhit2 : getCachedScan
      (handleScan env sc cc image sessionId mid now).scanCache
      image.strVal now' =
      some (assembleMonster env image.strVal mid now a vis) := by
    rw [hsc1]
    unfold getCachedScan setCachedScan
    rw [Cache.get_set_self, httl, if_pos hlt]
  have h2 := handleScan_hit env
    (handleScan env sc cc image sessionId mid now).scanCache
    (handleScan env sc cc image sessionId mid now).collectionCache
    image sessionId mid' now'
    (assembleMonster env image.strVal mid now a vis) hval hca hhit2
  constructor
  · rw [h2]
  · rw [h2, h1]
    rfl

/-- Witness for C1: a concrete successful first scan followed by a
byte-identical second scan one second later is served from the cache, and
each collaborator runs exactly once across the two calls. -/
theorem scan_dedup_witness :
    (handleScan envAllOk
        (handleScan envAllOk emptyScanCache emptyCollectionCache
          (JsVal.str "imgdata") (JsVal.str "sess1") "m1" 0).scanCache
        (handleScan envAllOk emptyScanCache emptyCollectionCache
          (JsVal.str "imgdata") (JsVal.str "sess1") "m1" 0).collectionCache
        (JsVal.str "imgdata") (JsVal.str "sess1") "m2" 1).response =
      ScanResponse.ok
        (assembleMonster envAllOk "imgdata" "m1" 0 analysisSample
          visualSample) true ∧
    Calls.add
      (handleScan envAllOk emptyScanCache emptyCollectionCache
        (JsVal.str "imgdata") (JsVal.str "sess1") "m1" 0).calls
      (handleScan envAllOk
        (handleScan envAllOk emptyScanCache emptyCollectionCache
          (JsVal.str "imgdata") (JsVal.str "sess1") "m1" 0).scanCache
        (handleScan envAllOk emptyScanCache emptyCollectionCache
          (JsVal.str "imgdata") (JsVal.str "sess1") "m1" 0).collectionCache
        (JsVal.str "imgdata") (JsVal.str "sess1") "m2" 1).calls =
      ⟨1, 1, 1, 1, 1⟩ := by
  exact scan_dedup.2 envAllOk emptyScanCache emptyCollectionCache
    (JsVal.str "imgdata") (JsVal.str "sess1") "m1" "m2" 0 1 analysisSample
    visualSample rfl rfl rfl (by decide) rfl rfl (fun s m => rfl) rfl
    (by decide) (by decide)

/-- List helper: a replicated list is empty exactly when the count is
zero. -/
theorem isEmpty_replicate (n : Nat) (a : Char) :
    (List.replicate n a).isEmpty = decide (n = 0) := by
  cases n <;> rfl

/-- C5: a request with a missing or non-string payload, a missing or
non-string session identifier, or a payload longer than 10 MiB is rejected
with the corresponding terminal validation failure before any cache is read
or collaborator invoked (the outcome is independent of the cache states and
the environment, both caches are returned untouched, and no collaborator is
called); a payload of exactly the maximum length passes validation while
the size checks map to HTTP 400/413. -/
theorem scan_validation :
    (∀ (env : Collabs) (sc : Cache String Monster)
        (cc : Cache String (List Monster)) (image sessionId : JsVal)
        (mid : String) (now : Nat),
      (image.truthy && image.isString) = false →
      handleScan env sc cc image sessionId mid now =
        ⟨ScanResponse.validationError ValidationFailure.invalidInput,
         sc, cc, Calls.zero⟩) ∧
    (∀ (env : Collabs) (sc : Cache String Monster)
        (cc : Cache String (List Monster)) (image sessionId : JsVal)
        (mid : String) (now : Nat),
      (image.truthy && image.isString) = true →
      (sessionId.truthy && sessionId.isString) = false →
      handleScan env sc cc image sessionId mid now =
        ⟨ScanResponse.validationError ValidationFailure.invalidSession,
         sc, cc, Calls.zero⟩) ∧
    (∀ (env : Collabs) (sc : Cache String Monster)
        (cc : Cache String (List Monster)) (image sessionId : JsVal)
        (mid : String) (now : Nat),
      (image.truthy && image.isString) = true →
      (sessionId.truthy && sessionId.isString) = true →
      maxImageLength < image.strVal.length →
      handleScan env sc cc image sessionId mid now =
        ⟨ScanResponse.validationError ValidationFailure.payloadTooLarge,
         sc, cc, Calls.zero⟩) ∧
    (∀ image sessionId : JsVal,
      (image.truthy && image.isString) = true →
      (sessionId.truthy && sessionId.isString) = true →
      image.strVal.length ≤ maxImageLength →
      validateScan image sessionId = none) ∧
    (ScanResponse.validationError ValidationFailure.invalidInput).status
      = 400 ∧
    (ScanResponse.validationError ValidationFailure.invalidSession).status
      = 400 ∧
    (ScanResponse.validationError ValidationFailure.payloadTooLarge).status
      = 413 := by
  refine ⟨?_, ?_, ?_, ?_, rfl, rfl, rfl⟩
  · intro env sc cc image sessionId mid now h
    have hv : validateScan image sessionId =
        some ValidationFailure.invalidInput := by
      simp [validateScan, h]
    simp [handleScan, hv]
  · intro env sc cc image sessionId mid now h1 h2
    have hv : validateScan image sessionId =
        some ValidationFailure.invalidSession := by
      simp [validateScan, h1, h2]
    simp [handleScan, hv]
  · intro env sc cc image sessionId mid now h1 h2 h3
    have hv : validateScan image sessionId =
        some ValidationFailure.payloadTooLarge := by
      simp [validateScan, h1, h2, h3]
    simp [handleScan, hv]
  · intro image sessionId h1 h2 hlen
    simp [validateScan, h1, h2, Nat.not_lt.mpr hlen]

/-- Witness for C5: a missing payload, a missing session identifier, a
payload one character over the limit, and a payload of exactly the limit,
each at a concrete request. -/
theorem scan_validation_witness :
    handleScan envAllOk emptyScanCache emptyCollectionCache JsVal.undef
      (JsVal.str "sess1") "m1" 0 =
      ⟨ScanResponse.validationError ValidationFailure.invalidInput,
       emptyScanCache, emptyCollectionCache, Calls.zero⟩ ∧
    handleScan envAllOk emptyScanCache emptyCollectionCache
      (JsVal.str "imgdata") JsVal.undef "m1" 0 =
      ⟨ScanResponse.validationError ValidationFailure.invalidSession,
       emptyScanCache, emptyCollectionCache, Calls.zero⟩ ∧
    handleScan envAllOk emptyScanCache emptyCollectionCache
      (JsVal.str imageOverLimit) (JsVal.str "sess1") "m1" 0 =
      ⟨ScanResponse.validationError ValidationFailure.payloadTooLarge,
       emptyScanCache, emptyCollectionCache, Calls.zero⟩ ∧
    validateScan (JsVal.str imageAtLimit) (JsVal.str "sess1") = none := by
  have hover : imageOverLimit.data =
      List.replicate (maxImageLength + 1) 'a' := rfl
  have hat : imageAtLimit.data = List.replicate maxImageLength 'a' := rfl
  have htruthyOver : ((JsVal.str imageOverLimit).truthy &&
      (JsVal.str imageOverLimit).isString) = true := by
    simp [JsVal.truthy, JsVal.isString, hover, isEmpty_replicate]
  have htruthyAt : ((JsVal.str imageAtLimit).truthy &&
      (JsVal.str imageAtLimit).isString) = true := by
    simp [JsVal.truthy, JsVal.isString, hat, isEmpty_replicate]
    decide
  have hlenOver : maxImageLength < (JsVal.str imageOverLimit).strVal.length := by
    show maxImageLength < (List.replicate (maxImageLength + 1) 'a').length
    rw [List.length_replicate]
    omega
  have hlenAt : (JsVal.str imageAtLimit).strVal.length ≤ maxImageLength := by
    show (List.replicate maxImageLength 'a').length ≤ maxImageLength
    rw [List.length_replicate]
  refine ⟨?_, ?_, ?_, ?_⟩
  · exact scan_validation.1 envAllOk emptyScanCache emptyCollectionCache
      JsVal.undef (JsVal.str "sess1") "m1" 0 (by decide)
  · exact scan_validation.2.1 envAllOk emptyScanCache emptyCollectionCache
      (JsVal.str "imgdata") JsVal.undef "m1" 0 (by decide) (by decide)
  · exact scan_validation.2.2.1 envAllOk emptyScanCache emptyCollectionCache
      (JsVal.str imageOverLimit) (JsVal.str "sess1") "m1" 0 htruthyOver
      (by decide) hlenOver
  · exact scan_validation.2.2.2.1 (JsVal.str imageAtLimit)
      (JsVal.str "sess1") htruthyAt (by decide) hlenAt

/-- C4 counterexample: with a failing Firestore write, the handler answers
a PIPELINE_ERROR response that carries no monster, so the caller does not
receive the computed PipelineResult in that response, contrary to the
claim. -/
theorem persist_failure_drops_result :
    (handleScan envPersistFail emptyScanCache emptyCollectionCache
        (JsVal.str "imgdata") (JsVal.str "sess1") "m1" 0).response =
      ScanResponse.pipelineError "firestore down" ∧
    ∀ (m : Monster) (b : Bool),
      (handleScan envPersistFail emptyScanCache emptyCollectionCache
        (JsVal.str "imgdata") (JsVal.str "sess1") "m1" 0).response ≠
        ScanResponse.ok m b := by
  have hresp : (handleScan envPersistFail emptyScanCache emptyCollectionCache
      (JsVal.str "imgdata") (JsVal.str "sess1") "m1" 0).response =
      ScanResponse.pipelineError "firestore down" := by decide
  refine ⟨hresp, fun m b hmb => ?_⟩
  rw [hresp] at hmb
  exact ScanResponse.noConfusion hmb

/-- C4 (amended): if the Document-Store write of the assembled
PipelineResult fails, handleScan reports the request as a pipeline failure
carrying the persistence error, and the caller does not receive the
computed PipelineResult — the result is lost to this response as well as to
the durable history. -/
theorem persist_failure_contract (env : Collabs) (sc : Cache String Monster)
    (cc : Cache String (List Monster)) (image sessionId : JsVal)
    (mid : String) (now : Nat) (e : String) (a : Analysis) (vis : Visual)
    (hval : validateScan image sessionId = none)
    (hmiss : (if env.cacheAvailable then getCachedScan sc image.strVal now
      else none) = none)
    (hserv : env.servicesAvailable = true)
    (hana : env.analyzeImage image.strVal = Except.ok a)
    (hvis : env.generateMonsterVisual a = Except.ok vis)
    (hsave : ∀ s m, env.saveMonster s m = Except.error e) :
    (handleScan env sc cc image sessionId mid now).response =
      ScanResponse.pipelineError e ∧
    ∀ (m : Monster) (b : Bool),
      (handleScan env sc cc image sessionId mid now).response ≠
        ScanResponse.ok m b := by
  have h : handleScan env sc cc image sessionId mid now =
      ⟨ScanResponse.pipelineError e, sc, cc, ⟨1, 1, 1, 1, 1⟩⟩ := by
    simp [handleScan, hval, hmiss, hserv, hana, hvis, hsave]
  rw [h]
  exact ⟨rfl, fun m b hmb => ScanResponse.noConfusion hmb⟩

/-- Witness for C4 (amended) at a concrete request against the
persistence-failing environment. -/
theorem persist_failure_contract_witness :
    (handleScan envPersistFail emptyScanCache emptyCollectionCache
        (JsVal.str "imgxyz") (JsVal.str "sess2") "m9" 3).response =
      ScanResponse.pipelineError "firestore down" ∧
    ∀ (m : Monster) (b : Bool),
      (handleScan envPersistFail emptyScanCache emptyCollectionCache
        (JsVal.str "imgxyz") (JsVal.str "sess2") "m9" 3).response ≠
        ScanResponse.ok m b := by
  exact persist_failure_contract envPersistFail emptyScanCache
    emptyCollectionCache (JsVal.str "imgxyz") (JsVal.str "sess2") "m9" 3
    "firestore down" analysisSample visualSample rfl (by decide) rfl rfl rfl
    (fun s m => rfl)

/-- C6: a Blob-Store failure never fails the request — when the staging
upload fails, the pipeline still completes with an absent source-image
reference; when the synthesized-image upload fails, the handler still
answers a successful result whose image reference is the embedded data URI
of the synthesized image. -/
theorem blobstore_failure_tolerated (env : Collabs)
    (sc : Cache String Monster) (cc : Cache String (List Monster))
    (image sessionId : JsVal) (mid : String) (now : Nat) (a : Analysis)
    (vis : Visual) (e₁ e₂ : String)
    (hval : validateScan image sessionId = none)
    (hmiss : (if env.cacheAvailable then getCachedScan sc image.strVal now
      else none) = none)
    (hserv : env.servicesAvailable = true)
    (hana : env.analyzeImage image.strVal = Except.ok a)
    (hvis : env.generateMonsterVisual a = Except.ok vis)
    (hsave : ∀ s m, env.saveMonster s m = Except.ok ()) :
    (env.uploadRawScan image.strVal = Except.error e₁ →
      ∃ M, (handleScan env sc cc image sessionId mid now).response =
        ScanResponse.ok M false ∧ M.rawScanUrl = none) ∧
    ((∀ r i, env.uploadMonsterImage r i = Except.error e₂) →
      ∃ M, (handleScan env sc cc image sessionId mid now).response =
        ScanResponse.ok M false ∧ M.imageUrl = vis.dataUri) := by
  have h := handleScan_success env sc cc image sessionId mid now hval hmiss
    hserv a vis hana hvis hsave
  constructor
  · intro hstag
    refine ⟨assembleMonster env image.strVal mid now a vis, ?_, ?_⟩
    · rw [h]
    · simp [assembleMonster, hstag, Except.toOption]
  · intro hupl
    refine ⟨assembleMonster env image.strVal mid now a vis, ?_, ?_⟩
    · rw [h]
    · simp [assembleMonster, hupl]

/-- Witness for C6: concrete requests against the staging-failing and the
asset-upload-failing environments. -/
theorem blobstore_failure_tolerated_witness :
    (∃ M, (handleScan envStagingFail emptyScanCache emptyCollectionCache
        (JsVal.str "imgdata") (JsVal.str "sess1") "m1" 0).response =
        ScanResponse.ok M false ∧ M.rawScanUrl = none) ∧
    (∃ M, (handleScan envAssetFail emptyScanCache emptyCollectionCache
        (JsVal.str "imgdata") (JsVal.str "sess1") "m1" 0).response =
        ScanResponse.ok M false ∧ M.imageUrl = visualSample.dataUri) := by
  constructor
  · exact (blobstore_failure_tolerated envStagingFail emptyScanCache
      emptyCollectionCache (JsVal.str "imgdata") (JsVal.str "sess1") "m1" 0
      analysisSample visualSample "gcs down" "unused" rfl (by decide) rfl rfl
      rfl (fun s m => rfl)).1 rfl
  · exact (blobstore_failure_tolerated envAssetFail emptyScanCache
      emptyCollectionCache (JsVal.str "imgdata") (JsVal.str "sess1") "m1" 0
      analysisSample visualSample "unused" "gcs down" rfl (by decide) rfl rfl
      rfl (fun s m => rfl)).2 (fun r i => rfl)

/-- C9: whenever the handler answers a pipeline failure (a fatal analysis,
synthesis or persistence stage failure), both caches are returned exactly
as they were — no scan-dedup entry is written and the collection entry of
the session is not invalidated, because both cache writes happen only after
the record persistence has succeeded. -/
theorem pipeline_failure_preserves_caches (env : Collabs)
    (sc : Cache String Monster) (cc : Cache String (List Monster))
    (image sessionId : JsVal) (mid : String) (now : Nat) (e : String)
    (h : (handleScan env sc cc image sessionId mid now).response =
      ScanResponse.pipelineError e) :
    (handleScan env sc cc image sessionId mid now).scanCache = sc ∧
    (handleScan env sc cc image sessionId mid now).collectionCache = cc := by
  cases hv : validateScan image sessionId with
  | some e₀ => simp [handleScan, hv] at h
  | none =>
    cases hc : (if env.cacheAvailable then getCachedScan sc image.strVal now
        else none) with
    | some m => simp [handleScan, hv, hc] at h
    | none =>
      cases hs : env.servicesAvailable with
      | false => simp [handleScan, hv, hc, hs] at h
      | true =>
        cases hana : env.analyzeImage image.strVal with
        | error e₁ => simp [handleScan, hv, hc, hs, hana]
        | ok a =>
          cases hvis : env.generateMonsterVisual a with
          | error e₂ => simp [handleScan, hv, hc, hs, hana, hvis]
          | ok vis =>
            cases hsave : env.saveMonster sessionId.strVal
                (assembleMonster env image.strVal mid now a vis) with
            | error e₃ => simp [handleScan, hv, hc, hs, hana, hvis, hsave]
            | ok u => simp [handleScan, hv, hc, hs, hana, hvis, hsave] at h

/-- Witness for C9: a concrete failing analysis stage leaves both concrete
caches untouched. -/
theorem pipeline_failure_preserves_caches_witness :
    (handleScan envAnalyzeFail emptyScanCache emptyCollectionCache
      (JsVal.str "imgdata") (JsVal.str "sess1") "m1" 0).scanCache =
      emptyScanCache ∧
    (handleScan envAnalyzeFail emptyScanCache emptyCollectionCache
      (JsVal.str "imgdata") (JsVal.str "sess1") "m1" 0).collectionCache =
      emptyCollectionCache := by
  exact pipeline_failure_preserves_caches envAnalyzeFail emptyScanCache
    emptyCollectionCache (JsVal.str "imgdata") (JsVal.str "sess1") "m1" 0
    "vertex down" (by decide)

/-- C10: the cache check precedes the collaborator-availability check — a
live cache hit is served even when every Google Cloud collaborator is
unavailable, and the 503 SERVICES_UNAVAILABLE outcome is reachable only on
a cache miss. -/
theorem cache_hit_before_availability :
    (∀ (env : Collabs) (sc : Cache String Monster)
        (cc : Cache String (List Monster)) (image sessionId : JsVal)
        (mid : String) (now : Nat) (m : Monster),
      validateScan image sessionId = none →
      env.cacheAvailable = true →
      env.servicesAvailable = false →
      getCachedScan sc image.strVal now = some m →
      handleScan env sc cc image sessionId mid now =
        ⟨ScanResponse.ok m true, sc, cc, Calls.zero⟩) ∧
    (∀ (env : Collabs) (sc : Cache String Monster)
        (cc : Cache String (List Monster)) (image sessionId : JsVal)
        (mid : String) (now : Nat),
      (handleScan env sc cc image sessionId mid now).response =
        ScanResponse.serviceUnavailable →
      (if env.cacheAvailable then getCachedScan sc image.strVal now
        else none) = none) ∧
    ScanResponse.serviceUnavailable.status = 503 := by
  refine ⟨?_, ?_, rfl⟩
  · intro env sc cc image sessionId mid now m hval hca hserv hhit
    exact handleScan_hit env sc cc image sessionId mid now m hval hca hhit
  · intro env sc cc image sessionId mid now h
    cases hv : validateScan image sessionId with
    | some e₀ => simp [handleScan, hv] at h
    | none =>
      cases hc : (if env.cacheAvailable then getCachedScan sc image.strVal now
          else none) with
      | some m => simp [handleScan, hv, hc] at h
      | none => rfl

/-- Witness for C10: with every Google Cloud collaborator unavailable, a
concrete request whose payload is already cached is still served as a cache
hit. -/
theorem cache_hit_before_availability_witness :
    handleScan envNoServices prepopulatedScanCache emptyCollectionCache
      (JsVal.str "imgdata") (JsVal.str "sess1") "m2" 0 =
      ⟨ScanResponse.ok monsterSample true, prepopulatedScanCache,
       emptyCollectionCache, Calls.zero⟩ := by
  exact cache_hit_before_availability.1 envNoServices prepopulatedScanCache
    emptyCollectionCache (JsVal.str "imgdata") (JsVal.str "sess1") "m2" 0
    monsterSample rfl rfl rfl (by decide)

end LivingLexicon
